import Mathlib

/-!
Shallow embedding of `examples/simple-chatbot/bot.py` (pipecat example).

The script loads 25 sprite images, builds a back-and-forth looping sprite
list, defines a `TalkingAnimation` frame processor that toggles between a
talking sprite animation and a quiet static frame, and wires a fixed
pipeline of processing stages.

Modelling conventions:
- `ImageRaw` models the payload of an `ImageRawFrame` (bytes, size, format).
- `Frame` models the frame classes the script inspects or constructs.
- `process_frame` models `TalkingAnimation.process_frame` as a pure
  transition function: given the module-level `sprites` list, the current
  processor state and the input frame, it returns the new state and the
  list of frames pushed downstream, in push order.
- The image-loading loop is modelled with an explicit opener function,
  either total (`load_sprites`) or fallible (`load_loop`), the latter
  returning the sprite list accumulated so far together with the
  uncaught error, if any.
-/

/-- Payload of an `ImageRawFrame`: `img.tobytes()`, `img.size`, `img.format`. -/
structure ImageRaw where
  image : List Nat
  size : Nat × Nat
  format : String
deriving DecidableEq, Repr, Inhabited

/-- The frame classes that `bot.py` constructs or branches on.  Frames the
script never inspects are collapsed into `other`. -/
inductive Frame where
  | audioRaw (audio : List Nat) (sampleRate : Nat) (numChannels : Nat)
  | imageRaw (img : ImageRaw)
  | sprite (images : List ImageRaw)
  | ttsStopped
  | llmMessages
  | other (tag : String)
deriving DecidableEq, Repr

/-- `isinstance(frame, AudioRawFrame)`. -/
def Frame.isAudioRaw : Frame → Bool
  | .audioRaw _ _ _ => true
  | _ => false

/-- `isinstance(frame, TTSStoppedFrame)`. -/
def Frame.isTTSStopped : Frame → Bool
  | .ttsStopped => true
  | _ => false

/-- `sprites.extend(sprites[::-1])`: the final module-level sprite list,
as a function of the 25 keyframes loaded from disk (lines 48-49). -/
def mk_sprites (keyframes : List ImageRaw) : List ImageRaw :=
  keyframes ++ keyframes.reverse

/-- `quiet_frame = sprites[0]` wrapped back into a frame (line 52). -/
def quiet_frame (sprites : List ImageRaw) : Frame :=
  Frame.imageRaw sprites.headI

/-- `talking_frame = SpriteFrame(images=sprites)` (line 53). -/
def talking_frame (sprites : List ImageRaw) : Frame :=
  Frame.sprite sprites

/-- The state of a `TalkingAnimation` processor: its `_is_talking` flag. -/
structure TalkingAnimation where
  is_talking : Bool
deriving DecidableEq, Repr

/-- `TalkingAnimation.__init__`: `self._is_talking = False`. -/
def TalkingAnimation.init : TalkingAnimation :=
  ⟨false⟩

/-- `TalkingAnimation.process_frame` (lines 66-77) as a pure transition:
returns the new state and the frames pushed downstream, in push order.
`sprites` is the module-level sprite list that `talking_frame` and
`quiet_frame` close over. -/
def process_frame (sprites : List ImageRaw) (ta : TalkingAnimation) (frame : Frame) :
    TalkingAnimation × List Frame :=
  if frame.isAudioRaw then
    if ta.is_talking then
      (ta, [frame])
    else
      (⟨true⟩, [talking_frame sprites, frame])
  else if frame.isTTSStopped then
    (⟨false⟩, [quiet_frame sprites, frame])
  else
    (ta, [frame])

/-- The seven stages wired into the `Pipeline` in `main` (lines 235-243). -/
inductive Stage where
  | transportInput
  | userResponseAggregator
  | llmService
  | ttsService
  | talkingAnimationStage
  | transportOutput
  | assistantResponseAggregator
deriving DecidableEq, Repr

/-- The `Pipeline([...])` stage list constructed in `main` (lines 235-243),
in source order. -/
def pipeline : List Stage :=
  [Stage.transportInput,
   Stage.userResponseAggregator,
   Stage.llmService,
   Stage.ttsService,
   Stage.talkingAnimationStage,
   Stage.transportOutput,
   Stage.assistantResponseAggregator]

/-- `range(1, 26)`: the asset indices visited by the loading loop (line 40). -/
def asset_indices : List Nat :=
  List.range' 1 25

/-- The image-loading loop (lines 40-46) with a total opener: for each
index `i` in order, open `assets/robot0{i}.png` and append the resulting
`ImageRawFrame` payload to the sprite list. -/
def load_sprites (openImage : Nat → ImageRaw) : List ImageRaw :=
  asset_indices.foldl (fun acc i => acc ++ [openImage i]) []

/-- The image-loading loop (lines 40-46) with a fallible opener.  No
`try/except` surrounds the loop, so the first raised error stops the loop
and propagates; the sprite list keeps exactly the frames appended before
the failure. -/
def load_loop (openImage : Nat → Except String ImageRaw) :
    List Nat → List ImageRaw → List ImageRaw × Option String
  | [], acc => (acc, none)
  | i :: rest, acc =>
    match openImage i with
    | Except.ok img => load_loop openImage rest (acc ++ [img])
    | Except.error e => (acc, some e)

/-- The script end to end with fallible loading and a fallible pipeline
run: a loading error propagates to the process boundary before `main`
runs; otherwise the result of `runner.run(task)` — caught nowhere in
`main` (lines 80-255) — is the result of the script. -/
def script (openImage : Nat → Except String ImageRaw)
    (pipelineRun : Except String Unit) : List ImageRaw × Except String Unit :=
  match load_loop openImage asset_indices [] with
  | (sprites, some e) => (sprites, Except.error e)
  | (sprites, none) => (sprites, pipelineRun)

-- Helper lemmas -------------------------------------------------------------

instance : DecidableEq (Except String ImageRaw) := fun x y =>
  match x, y with
  | Except.ok a, Except.ok b => decidable_of_iff (a = b) (by simp)
  | Except.error a, Except.error b => decidable_of_iff (a = b) (by simp)
  | Except.ok _, Except.error _ => isFalse (by simp)
  | Except.error _, Except.ok _ => isFalse (by simp)

lemma load_sprites_eq_map (f : Nat → ImageRaw) :
    load_sprites f = asset_indices.map f := by
  have h : ∀ (l : List Nat) (acc : List ImageRaw),
      l.foldl (fun acc i => acc ++ [f i]) acc = acc ++ l.map f := by
    intro l
    induction l with
    | nil => intro acc; simp
    | cons x xs ih =>
      intro acc
      simp [List.foldl_cons, ih, List.append_assoc]
  simpa [load_sprites] using h asset_indices []

lemma load_loop_ok_front (f : Nat → Except String ImageRaw) (g : Nat → ImageRaw)
    (l₁ : List Nat) (hok : ∀ i ∈ l₁, f i = Except.ok (g i)) :
    ∀ (l₂ : List Nat) (acc : List ImageRaw),
      load_loop f (l₁ ++ l₂) acc = load_loop f l₂ (acc ++ l₁.map g) := by
  induction l₁ with
  | nil => intro l₂ acc; simp
  | cons x xs ih =>
    intro l₂ acc
    have hx : f x = Except.ok (g x) := hok x (List.mem_cons_self x xs)
    have hxs : ∀ i ∈ xs, f i = Except.ok (g i) := fun i hi => hok i (List.mem_cons_of_mem x hi)
    simp [load_loop, hx, ih hxs, List.append_assoc]

-- Claim theorems -------------------------------------------------------------

/-- C1: for every `AudioRawFrame` received while `_is_talking` is false,
`process_frame` pushes `talking_frame` (before forwarding the input) and
sets `_is_talking` to true; an `AudioRawFrame` received while `_is_talking`
is already true causes no sprite frame to be pushed. -/
theorem audio_frame_transitions (sprites : List ImageRaw) (ta : TalkingAnimation)
    (audio : List Nat) (sr nc : Nat) :
    (ta.is_talking = false →
      process_frame sprites ta (Frame.audioRaw audio sr nc) =
        (⟨true⟩, [talking_frame sprites, Frame.audioRaw audio sr nc])) ∧
    (ta.is_talking = true →
      process_frame sprites ta (Frame.audioRaw audio sr nc) =
        (ta, [Frame.audioRaw audio sr nc])) := by
  constructor <;> intro h <;> simp [process_frame, Frame.isAudioRaw, h]

/-- C1 witness: from the initial state, a concrete audio frame pushes the
talking sprite frame and flips the flag. -/
theorem audio_frame_transitions_witness :
    process_frame [] TalkingAnimation.init (Frame.audioRaw [0] 16000 1) =
      (⟨true⟩, [talking_frame [], Frame.audioRaw [0] 16000 1]) :=
  (audio_frame_transitions [] TalkingAnimation.init [0] 16000 1).1 rfl

/-- C2: every `TTSStoppedFrame` makes `process_frame` push `quiet_frame`
(before forwarding the input) and set `_is_talking` to false. -/
theorem tts_stopped_goes_quiet (sprites : List ImageRaw) (ta : TalkingAnimation) :
    process_frame sprites ta Frame.ttsStopped =
      (⟨false⟩, [quiet_frame sprites, Frame.ttsStopped]) := by
  simp [process_frame, Frame.isAudioRaw, Frame.isTTSStopped]

/-- C3: every input frame is forwarded unchanged as the last pushed frame;
whatever sprite frame is emitted precedes it. -/
theorem input_frame_forwarded (sprites : List ImageRaw) (ta : TalkingAnimation)
    (frame : Frame) :
    ∃ emitted : List Frame,
      (process_frame sprites ta frame).2 = emitted ++ [frame] ∧
      emitted.length ≤ 1 := by
  unfold process_frame
  by_cases ha : frame.isAudioRaw
  · by_cases ht : ta.is_talking
    · exact ⟨[], by simp [ha, ht]⟩
    · exact ⟨[talking_frame sprites], by simp [ha, ht]⟩
  · by_cases hs : frame.isTTSStopped
    · exact ⟨[quiet_frame sprites], by simp [ha, hs]⟩
    · exact ⟨[], by simp [ha, hs]⟩

/-- C4: the pipeline consists of exactly the seven stages, in the order
transport input, user aggregator, LLM, TTS, talking animation, transport
output, assistant aggregator. -/
theorem pipeline_stage_order :
    pipeline =
      [Stage.transportInput,
       Stage.userResponseAggregator,
       Stage.llmService,
       Stage.ttsService,
       Stage.talkingAnimationStage,
       Stage.transportOutput,
       Stage.assistantResponseAggregator] := rfl

/-- C5: the final sprite list is the loaded keyframes followed by their
reverse, hence a palindrome, and 25 keyframes yield 50 sprites. -/
theorem sprites_palindrome (keyframes : List ImageRaw) :
    mk_sprites keyframes = keyframes ++ keyframes.reverse ∧
    (mk_sprites keyframes).reverse = mk_sprites keyframes ∧
    (keyframes.length = 25 → (mk_sprites keyframes).length = 50) := by
  refine ⟨rfl, ?_, ?_⟩
  · simp [mk_sprites]
  · intro h
    simp [mk_sprites, h]

/-- C5 witness: 25 identical keyframes yield a 50-element sprite list. -/
theorem sprites_palindrome_witness :
    (List.replicate 25 (⟨[], (1, 1), "PNG"⟩ : ImageRaw)).length = 25 ∧
    (mk_sprites (List.replicate 25 (⟨[], (1, 1), "PNG"⟩ : ImageRaw))).length = 50 :=
  ⟨by simp,
   (sprites_palindrome (List.replicate 25 ⟨[], (1, 1), "PNG"⟩)).2.2 (by simp)⟩

/-- C6: the loading loop visits exactly the indices 1..25 in order and
appends one frame per opened file, so the sprite list after the loop is
the opener mapped over indices 1..25, with 25 elements. -/
theorem load_visits_25_assets (openImage : Nat → ImageRaw) :
    asset_indices = List.range' 1 25 ∧
    load_sprites openImage = (List.range' 1 25).map openImage ∧
    (load_sprites openImage).length = 25 := by
  refine ⟨rfl, load_sprites_eq_map openImage, ?_⟩
  simp [load_sprites_eq_map openImage, asset_indices]

/-- C7: exceptions are never caught.  If the opener succeeds on a prefix
of the indices and raises on the next one, the loading loop stops there:
the raised error propagates unchanged and the sprite list keeps exactly
the frames appended before the failure (nothing is rolled back).  When
loading succeeds throughout, the result of the pipeline run — whatever it
is, success or error — is the result of the script, untouched. -/
theorem errors_propagate_unhandled (f : Nat → Except String ImageRaw)
    (g : Nat → ImageRaw) (l₁ l₂ : List Nat) (j : Nat) (e : String)
    (pipelineRun : Except String Unit)
    (hok : ∀ i ∈ l₁, f i = Except.ok (g i)) (herr : f j = Except.error e) :
    load_loop f (l₁ ++ j :: l₂) [] = (l₁.map g, some e) ∧
    ((∀ i ∈ asset_indices, f i = Except.ok (g i)) →
      script f pipelineRun = (asset_indices.map g, pipelineRun)) := by
  constructor
  · rw [load_loop_ok_front f g l₁ hok (j :: l₂) []]
    simp [load_loop, herr]
  · intro hall
    have h := load_loop_ok_front f g asset_indices hall [] []
    rw [List.append_nil] at h
    have h₂ : load_loop f asset_indices [] = (asset_indices.map g, none) := h.trans rfl
    unfold script
    rw [h₂]

/-- C7 witness: a concrete opener that fails on index 3 after succeeding
on 1 and 2 leaves two frames loaded and the error uncaught; an opener
failing only on index 0 (never visited) hands the run result through
unchanged. -/
theorem errors_propagate_unhandled_witness :
    load_loop (fun i => if i = 3 then Except.error "iofail" else Except.ok ⟨[i], (1, 1), "PNG"⟩)
        ([1, 2] ++ 3 :: [4, 5]) [] =
      ([⟨[1], (1, 1), "PNG"⟩, ⟨[2], (1, 1), "PNG"⟩], some "iofail") ∧
    script (fun i => if i = 0 then Except.error "never" else Except.ok ⟨[i], (1, 1), "PNG"⟩)
        (Except.error "runfail") =
      (asset_indices.map (fun i => ⟨[i], (1, 1), "PNG"⟩), Except.error "runfail") := by
  have h := errors_propagate_unhandled
    (fun i => if i = 3 then Except.error "iofail" else Except.ok ⟨[i], (1, 1), "PNG"⟩)
    (fun i => ⟨[i], (1, 1), "PNG"⟩) [1, 2] [4, 5] 3 "iofail"
    (Except.error "runfail") (by decide) (by decide)
  have h₂ := errors_propagate_unhandled
    (fun i => if i = 0 then Except.error "never" else Except.ok ⟨[i], (1, 1), "PNG"⟩)
    (fun i => ⟨[i], (1, 1), "PNG"⟩) [] [] 0 "never" (Except.error "runfail")
    (by simp) (by decide)
  refine ⟨by simpa using h.1, ?_⟩
  have hmap := h₂.2 (by decide)
  simpa using hmap

/-- C8: an `AudioRawFrame` processed while `_is_talking` is true pushes
exactly one frame (the forwarded input) and leaves the flag unchanged, so
two consecutive audio frames from the initial state emit the talking
sprite frame exactly once. -/
theorem audio_while_talking_idempotent (sprites : List ImageRaw)
    (ta : TalkingAnimation) (audio audio' : List Nat) (sr nc sr' nc' : Nat)
    (h : ta.is_talking = true) :
    process_frame sprites ta (Frame.audioRaw audio sr nc) =
      (ta, [Frame.audioRaw audio sr nc]) ∧
    (((process_frame sprites TalkingAnimation.init (Frame.audioRaw audio sr nc)).2 ++
      (process_frame sprites
        (process_frame sprites TalkingAnimation.init (Frame.audioRaw audio sr nc)).1
        (Frame.audioRaw audio' sr' nc')).2).count (talking_frame sprites)) = 1 := by
  constructor
  · simp [process_frame, Frame.isAudioRaw, h]
  · simp [process_frame, Frame.isAudioRaw, TalkingAnimation.init,
      talking_frame, List.count_cons, List.count_append]

/-- C8 witness: concrete consecutive audio frames from the initial state
produce the talking sprite frame exactly once. -/
theorem audio_while_talking_idempotent_witness :
    process_frame [] ⟨true⟩ (Frame.audioRaw [7] 8000 1) =
      (⟨true⟩, [Frame.audioRaw [7] 8000 1]) ∧
    (((process_frame [] TalkingAnimation.init (Frame.audioRaw [7] 8000 1)).2 ++
      (process_frame []
        (process_frame [] TalkingAnimation.init (Frame.audioRaw [7] 8000 1)).1
        (Frame.audioRaw [8] 8000 1)).2).count (talking_frame [])) = 1 :=
  audio_while_talking_idempotent [] ⟨true⟩ [7] [8] 8000 1 8000 1 rfl

/-- C9: the quiet transition is unconditional: a `TTSStoppedFrame`
received while `_is_talking` is already false still pushes `quiet_frame`. -/
theorem tts_stopped_unconditional (sprites : List ImageRaw) :
    process_frame sprites ⟨false⟩ Frame.ttsStopped =
      (⟨false⟩, [quiet_frame sprites, Frame.ttsStopped]) := by
  simp [process_frame, Frame.isAudioRaw, Frame.isTTSStopped]

/-- C10: a frame that is neither an `AudioRawFrame` nor a
`TTSStoppedFrame` leaves `_is_talking` unchanged and is pushed alone. -/
theorem other_frames_pass_through (sprites : List ImageRaw)
    (ta : TalkingAnimation) (frame : Frame)
    (h₁ : frame.isAudioRaw = false) (h₂ : frame.isTTSStopped = false) :
    process_frame sprites ta frame = (ta, [frame]) := by
  simp [process_frame, h₁, h₂]

/-- C10 witness: an `LLMMessagesFrame` passes through unchanged from the
initial state. -/
theorem other_frames_pass_through_witness :
    process_frame [] TalkingAnimation.init Frame.llmMessages =
      (TalkingAnimation.init, [Frame.llmMessages]) :=
  other_frames_pass_through [] TalkingAnimation.init Frame.llmMessages rfl rfl
